import Mathlib

/-
  Verification of the intrusion-detection-system core (src/src) against its
  natural-language specification.

  Shallow embedding conventions:
  - A firewall command is modelled as the argv list handed to subprocess.run;
    the external firewall is a pure oracle `fw : Cmd → Bool` giving the
    success (returncode 0) of each invocation.
  - `Blocker` state (blocker.py) is the contents of its CustomLinkedList of
    blocked addresses plus the lines of the persistent blocked-ips file.
    CustomLinkedList.append adds at the tail, search is membership, remove
    deletes the first occurrence.
  - Each stateful operation returns its Python return value, the list of
    firewall invocations it performed, and the new state.
-/

/-- A firewall command: the argv list passed to subprocess.run. -/
abbrev Cmd := List String

/-- blocker.py line 54: argv of the iptables add-drop-rule invocation. -/
def addCmd (ip : String) : Cmd :=
  ["sudo", "iptables", "-A", "INPUT", "-s", ip, "-j", "DROP"]

/-- blocker.py line 89: argv of the iptables delete-drop-rule invocation. -/
def delCmd (ip : String) : Cmd :=
  ["sudo", "iptables", "-D", "INPUT", "-s", ip, "-j", "DROP"]

/-- blocker.py line 134: argv of the iptables flush-INPUT invocation. -/
def flushCmd : Cmd := ["sudo", "iptables", "-F", "INPUT"]

/-- State of a `Blocker` (blocker.py): the blocked addresses held in the
    CustomLinkedList (head-first order) and the lines of the persistent
    blocked-ips file. -/
structure BlockerState where
  blocked : List String
  fileLines : List String
deriving Repr, DecidableEq

/-- Result of one Blocker operation: the Python boolean return value, the
    firewall invocations performed during the call (in order), and the
    state after the call. -/
structure CallResult where
  ret : Bool
  fwCalls : List Cmd
  state : BlockerState
deriving Repr, DecidableEq

/-- CustomLinkedList.remove (custom_structures.py lines 58-80): deletes the
    first occurrence of an element. -/
def llRemove (ip : String) : List String → List String
  | [] => []
  | x :: xs => if x = ip then xs else x :: llRemove ip xs

/-- Blocker._save_to_file (blocker.py lines 153-157): appends the line
    `ip | timestamp` to the blocked-ips file. -/
def saveToFile (st : BlockerState) (ip ts : String) : BlockerState :=
  { st with fileLines := st.fileLines ++ [ip ++ " | " ++ ts] }

/-- Python str.strip(): drop leading and trailing whitespace characters. -/
def pyStrip (s : String) : String :=
  String.mk (((s.toList.dropWhile Char.isWhitespace).reverse.dropWhile
    Char.isWhitespace).reverse)

/-- Python str.startswith(pre): the characters of pre are a prefix of the
    characters of the receiver. -/
def pyStartsWith (s pre : String) : Bool :=
  pre.toList.isPrefixOf s.toList

/-- Blocker._remove_from_file (blocker.py lines 159-170): rewrites the
    blocked-ips file keeping only the lines whose stripped content does not
    start with the given address string. -/
def removeFromFile (ip : String) (lines : List String) : List String :=
  lines.filter (fun l => !(pyStartsWith (pyStrip l) ip))

/-- Blocker.block_ip (blocker.py lines 37-70). `fw` is the firewall oracle,
    `ts` the timestamp string written by _save_to_file. If the address is
    already in the linked list the call returns True with no firewall
    invocation; otherwise the add rule is invoked, and only on success is
    the address appended to the list and persisted. -/
def block_ip (fw : Cmd → Bool) (ts : String) (st : BlockerState) (ip : String) : CallResult :=
  if st.blocked.contains ip then
    { ret := true, fwCalls := [], state := st }
  else if fw (addCmd ip) then
    { ret := true, fwCalls := [addCmd ip],
      state := saveToFile { st with blocked := st.blocked ++ [ip] } ip ts }
  else
    { ret := false, fwCalls := [addCmd ip], state := st }

/-- Blocker.unblock_ip (blocker.py lines 72-105). If the address is not in
    the linked list the call returns False with no firewall invocation;
    otherwise the delete rule is invoked, and only on success is the address
    removed from the list and from the persistent file. -/
def unblock_ip (fw : Cmd → Bool) (st : BlockerState) (ip : String) : CallResult :=
  if st.blocked.contains ip then
    if fw (delCmd ip) then
      { ret := true, fwCalls := [delCmd ip],
        state := { blocked := llRemove ip st.blocked,
                   fileLines := removeFromFile ip st.fileLines } }
    else
      { ret := false, fwCalls := [delCmd ip], state := st }
  else
    { ret := false, fwCalls := [], state := st }

/-- Loop body of Blocker.unblock_all (blocker.py lines 107-124): iterate over
    the snapshot of blocked addresses, attempt unblock_ip on each, count the
    successes, and accumulate the firewall invocations. -/
def unblockAllGo (fw : Cmd → Bool) : List String → BlockerState → Nat × List Cmd × BlockerState
  | [], st => (0, [], st)
  | ip :: rest, st =>
    let r := unblock_ip fw st ip
    let rec2 := unblockAllGo fw rest r.state
    ((if r.ret then 1 else 0) + rec2.1, r.fwCalls ++ rec2.2.1, rec2.2.2)

/-- Blocker.unblock_all (blocker.py lines 107-124): takes the snapshot
    returned by get_blocked_ips (to_list of the linked list) and sweeps it. -/
def unblock_all (fw : Cmd → Bool) (st : BlockerState) : Nat × List Cmd × BlockerState :=
  unblockAllGo fw st.blocked st

/-- Blocker.flush_iptables (blocker.py lines 126-151): invokes the flush
    command; only on success does it replace the linked list with a fresh
    empty one and rewrite the file to a single header comment line. -/
def flush_iptables (fw : Cmd → Bool) (ts : String) (st : BlockerState) : CallResult :=
  if fw flushCmd then
    { ret := true, fwCalls := [flushCmd],
      state := { blocked := [], fileLines := ["# Blocked IPs - Flushed " ++ ts] } }
  else
    { ret := false, fwCalls := [flushCmd], state := st }

/-- Claim C1: for every address `a` not currently in the blocked set, if the
    firewall add action succeeds, then calling block(a) twice in succession
    performs exactly one firewall add invocation across both calls (the
    second call performs none), the second call returns the already-blocked
    outcome True rather than an error, and the state after the second call
    equals the state after the first. -/
theorem block_ip_idempotent (fw : Cmd → Bool) (ts1 ts2 : String) (st : BlockerState)
    (a : String) (hnb : st.blocked.contains a = false) (hfw : fw (addCmd a) = true) :
    (block_ip fw ts2 (block_ip fw ts1 st a).state a).ret = true
    ∧ (block_ip fw ts2 (block_ip fw ts1 st a).state a).fwCalls = []
    ∧ (block_ip fw ts1 st a).fwCalls
        ++ (block_ip fw ts2 (block_ip fw ts1 st a).state a).fwCalls = [addCmd a]
    ∧ (block_ip fw ts2 (block_ip fw ts1 st a).state a).state = (block_ip fw ts1 st a).state := by
  have hnb2 : a ∉ st.blocked := by simpa using hnb
  have h1 : block_ip fw ts1 st a =
      { ret := true, fwCalls := [addCmd a],
        state := saveToFile { st with blocked := st.blocked ++ [a] } a ts1 } := by
    simp [block_ip, hnb2, hfw]
  have hmem : a ∈ (saveToFile { st with blocked := st.blocked ++ [a] } a ts1).blocked := by
    simp [saveToFile]
  refine ⟨?_, ?_, ?_, ?_⟩ <;> rw [h1] <;> simp [block_ip, hmem]

/-- Concrete instance of block_ip_idempotent: blocking 1.2.3.4 twice from the
    empty state with an always-succeeding firewall. -/
theorem block_ip_idempotent_witness :
    (([] : List String).contains "1.2.3.4" = false
      ∧ (fun _ => true : Cmd → Bool) (addCmd "1.2.3.4") = true)
    ∧ ((block_ip (fun _ => true) "t2"
          (block_ip (fun _ => true) "t1" ⟨[], []⟩ "1.2.3.4").state "1.2.3.4").ret = true
    ∧ (block_ip (fun _ => true) "t2"
          (block_ip (fun _ => true) "t1" ⟨[], []⟩ "1.2.3.4").state "1.2.3.4").fwCalls = []
    ∧ (block_ip (fun _ => true) "t1" ⟨[], []⟩ "1.2.3.4").fwCalls
        ++ (block_ip (fun _ => true) "t2"
          (block_ip (fun _ => true) "t1" ⟨[], []⟩ "1.2.3.4").state "1.2.3.4").fwCalls
        = [addCmd "1.2.3.4"]
    ∧ (block_ip (fun _ => true) "t2"
          (block_ip (fun _ => true) "t1" ⟨[], []⟩ "1.2.3.4").state "1.2.3.4").state
        = (block_ip (fun _ => true) "t1" ⟨[], []⟩ "1.2.3.4").state) :=
  ⟨⟨by decide, by decide⟩,
    block_ip_idempotent (fun _ => true) "t1" "t2" ⟨[], []⟩ "1.2.3.4" (by decide) (by decide)⟩

/-
  Detector (detector.py). detect_threats iterates over the failed_attempts
  dict (modelled as an association list with distinct keys, in iteration
  order); the CustomHashTable insert and the threat_history append do not
  affect the returned list and are omitted. The timestamp field of a threat
  dict is not relevant to any claim and is omitted.
-/

/-- Detector._calculate_threat_level (detector.py lines 51-68). -/
def calculate_threat_level (attempts : Nat) : String :=
  if attempts ≥ 20 then "CRITICAL"
  else if attempts ≥ 10 then "HIGH"
  else if attempts ≥ 7 then "MEDIUM"
  else "LOW"

/-- A threat dict as built by Detector.detect_threats (detector.py
    lines 40-45), without the timestamp field. -/
structure Threat where
  ip : String
  attempts : Nat
  threat_level : String
deriving Repr, DecidableEq

/-- Detector.detect_threats (detector.py lines 22-49): one threat per entry
    whose count reaches the threshold, in iteration order. -/
def detect_threats (threshold : Nat) : List (String × Nat) → List Threat
  | [] => []
  | (ip, count) :: rest =>
    if count ≥ threshold then
      ⟨ip, count, calculate_threat_level count⟩ :: detect_threats threshold rest
    else
      detect_threats threshold rest

/-- Severity exactly as the claim states it: CRITICAL when count ≥ 20, HIGH
    when 10 ≤ count < 20, MEDIUM when 7 ≤ count < 10, and LOW otherwise. -/
def claimSeverity (count : Nat) : String :=
  if 20 ≤ count then "CRITICAL"
  else if 10 ≤ count ∧ count < 20 then "HIGH"
  else if 7 ≤ count ∧ count < 10 then "MEDIUM"
  else "LOW"

theorem calculate_eq_claimSeverity (c : Nat) :
    calculate_threat_level c = claimSeverity c := by
  unfold calculate_threat_level claimSeverity
  split_ifs <;> first | rfl | omega

theorem detect_threats_ip_mem (t : Nat) :
    ∀ (l : List (String × Nat)), ∀ th ∈ detect_threats t l, th.ip ∈ l.map Prod.fst := by
  intro l
  induction l with
  | nil => intro th h; simp [detect_threats] at h
  | cons hd tl ih =>
    intro th h
    obtain ⟨ip, count⟩ := hd
    by_cases hc : count ≥ t
    · simp [detect_threats, hc] at h
      rcases h with h | h
      · subst h; simp
      · exact List.mem_cons_of_mem _ (ih th h)
    · simp [detect_threats, hc] at h
      exact List.mem_cons_of_mem _ (ih th h)

/-- Claim C2: for a failed-attempts mapping (distinct addresses) and
    threshold t, detect_threats surfaces exactly one threat for an entry
    iff its count is at least t (count = t is surfaced, count = t-1 is not),
    and the surfaced threat carries the entry count and the severity
    CRITICAL when count ≥ 20, HIGH when 10 ≤ count < 20, MEDIUM when
    7 ≤ count < 10, LOW otherwise. -/
theorem detect_threats_threshold_severity (t : Nat) (fa : List (String × Nat))
    (k : String) (c : Nat) (hnd : (fa.map Prod.fst).Nodup) (hp : (k, c) ∈ fa) :
    ((detect_threats t fa).filter (fun th => th.ip == k)).length
      = (if t ≤ c then 1 else 0)
    ∧ (t ≤ c →
        (detect_threats t fa).filter (fun th => th.ip == k)
          = [⟨k, c, claimSeverity c⟩]) := by
  induction fa with
  | nil => simp at hp
  | cons hd tl ih =>
    obtain ⟨ip, count⟩ := hd
    rw [List.map_cons, List.nodup_cons] at hnd
    obtain ⟨hnotin, hnd2⟩ := hnd
    rcases List.mem_cons.mp hp with heq | hmem
    · cases heq
      have htailfilter : (detect_threats t tl).filter (fun th => th.ip == k) = [] := by
        rw [List.filter_eq_nil_iff]
        intro th hth
        have hmem2 := detect_threats_ip_mem t tl th hth
        simp only [beq_iff_eq]
        intro hcontra
        exact hnotin (hcontra ▸ hmem2)
      by_cases hc : t ≤ c
      · have hunf : detect_threats t ((k, c) :: tl)
            = ⟨k, c, calculate_threat_level c⟩ :: detect_threats t tl := by
          simp [detect_threats, hc]
        rw [hunf]
        constructor
        · simp [List.filter_cons, htailfilter, hc]
        · intro _
          simp [List.filter_cons, htailfilter, calculate_eq_claimSeverity]
      · have hunf : detect_threats t ((k, c) :: tl) = detect_threats t tl := by
          simp [detect_threats, hc]
        rw [hunf, htailfilter]
        simp [hc]
    · have hne : (ip == k) = false := by
        simp only [beq_eq_false_iff_ne, ne_eq]
        intro hcontra
        refine hnotin ?_
        rw [hcontra]
        exact List.mem_map.mpr ⟨(k, c), hmem, rfl⟩
      have ihr := ih hnd2 hmem
      by_cases hc : t ≤ count
      · have hunf : detect_threats t ((ip, count) :: tl)
            = ⟨ip, count, calculate_threat_level count⟩ :: detect_threats t tl := by
          simp [detect_threats, hc]
        rw [hunf]
        constructor
        · simpa [List.filter_cons, hne] using ihr.1
        · intro h
          simpa [List.filter_cons, hne] using ihr.2 h
      · have hunf : detect_threats t ((ip, count) :: tl) = detect_threats t tl := by
          simp [detect_threats, hc]
        rw [hunf]
        exact ihr

/-- Concrete instance of detect_threats_threshold_severity: with threshold 5
    the entry with 25 attempts is surfaced once, at CRITICAL. -/
theorem detect_threats_threshold_severity_witness :
    ((("a", 5) :: ("b", 4) :: ("c", 25) :: []).map Prod.fst).Nodup
    ∧ ((detect_threats 5 (("a", 5) :: ("b", 4) :: ("c", 25) :: [])).filter
        (fun th => th.ip == "c")).length = (if 5 ≤ 25 then 1 else 0)
    ∧ (5 ≤ 25 →
        (detect_threats 5 (("a", 5) :: ("b", 4) :: ("c", 25) :: [])).filter
          (fun th => th.ip == "c") = [⟨"c", 25, claimSeverity 25⟩]) :=
  ⟨by decide,
    detect_threats_threshold_severity 5 (("a", 5) :: ("b", 4) :: ("c", 25) :: [])
      "c" 25 (by decide) (by decide)⟩

/-
  LogParser (log_parser.py) reading backends. Time is modelled as Nat
  (seconds); the strftime formatting of a timestamp into the --since
  argument is a bijective encoding and is elided, so the backend oracle
  receives the timestamp itself. A backend query is identified by the
  service unit name and the since timestamp; its outcome is either a
  completed subprocess (returncode and stdout) or a timeout / other
  exception raised by subprocess.run.
-/

/-- Mutable read state of LogParser relevant to the journal backend:
    last_timestamp (the resume cursor, None before the first read) and the
    configured lookback_minutes. -/
structure JState where
  last_timestamp : Option Nat
  lookback_minutes : Nat
deriving Repr, DecidableEq

/-- Outcome of one journalctl subprocess invocation. -/
inductive JOutcome where
  | ok (returncode : Int) (stdout : String)
  | timeout
  | exc
deriving Repr, DecidableEq

/-- The --since argument computed at log_parser.py lines 100-106: the stored
    cursor when present, otherwise now minus the lookback window. -/
def sinceOf (st : JState) (now : Nat) : Nat :=
  match st.last_timestamp with
  | some t => t
  | none => now - st.lookback_minutes

/-- The service loop of _read_from_journalctl (log_parser.py lines 113-131):
    try each service name in order; the first completed query with
    returncode 0 and non-blank stdout yields its lines; a timeout or other
    exception aborts the whole call with an empty result (the except
    handlers at lines 133-138); if no service yields output, return []. -/
def tryServices (backend : String → Nat → JOutcome) (since : Nat) :
    List String → List String
  | [] => []
  | s :: rest =>
    match backend s since with
    | .ok r out => if r = 0 ∧ out.trim ≠ "" then out.splitOn "\n"
                   else tryServices backend since rest
    | .timeout => []
    | .exc => []

/-- Whether the service loop hits a timeout or another exception before a
    successful non-blank response (mirrors the traversal of tryServices). -/
def hitsError (backend : String → Nat → JOutcome) (since : Nat) :
    List String → Bool
  | [] => false
  | s :: rest =>
    match backend s since with
    | .ok r out => if r = 0 ∧ out.trim ≠ "" then false
                   else hitsError backend since rest
    | .timeout => true
    | .exc => true

/-- LogParser._read_from_journalctl (log_parser.py lines 91-138): computes
    the since argument from the stored cursor, then sets
    last_timestamp := now (line 109) BEFORE any backend query, then runs the
    service loop over sshd, ssh, openssh. Returns the lines and the new
    state. -/
def read_from_journalctl (backend : String → Nat → JOutcome) (now : Nat)
    (st : JState) : List String × JState :=
  let since := sinceOf st now
  let st2 : JState := { st with last_timestamp := some now }
  (tryServices backend since ["sshd", "ssh", "openssh"], st2)

/-- LogParser._read_from_file (log_parser.py lines 140-165), readable-file
    path: reads the whole file and returns its last 200 lines; the reader
    keeps no offset or cursor of any kind for this backend (the
    PermissionError fallback shells out to tail -n 200 and the
    FileNotFoundError path returns [], neither consulting any offset). -/
def read_from_file (fileLines : List String) : List String :=
  fileLines.drop (fileLines.length - 200)

theorem tryServices_error_empty (backend : String → Nat → JOutcome) (since : Nat) :
    ∀ services, hitsError backend since services = true →
      tryServices backend since services = [] := by
  intro services
  induction services with
  | nil => intro h; simp [hitsError] at h
  | cons s rest ih =>
    intro h
    unfold hitsError at h
    unfold tryServices
    cases hbk : backend s since with
    | ok r out =>
      rw [hbk] at h
      by_cases hcond : r = 0 ∧ out.trim ≠ ""
      · simp [hcond] at h
      · simp [hcond] at h ⊢
        exact ih h
    | timeout => rfl
    | exc => rfl

/-- Counterexample to claim C3: with a backend whose first query times out,
    a call at time 6 with stored cursor 5 returns the empty sequence as the
    claim says, but the stored cursor is NOT unchanged — it has been
    advanced to 6 even though no successful read was confirmed. -/
theorem journalctl_cursor_advanced_on_timeout :
    (read_from_journalctl (fun _ _ => JOutcome.timeout) 6 ⟨some 5, 10⟩).1 = []
    ∧ (read_from_journalctl (fun _ _ => JOutcome.timeout) 6 ⟨some 5, 10⟩).2.last_timestamp
        ≠ (⟨some 5, 10⟩ : JState).last_timestamp := by
  constructor
  · rfl
  · intro h
    simp [read_from_journalctl] at h

/-- Claim C3 amended: in journal mode, whenever the backend read times out
    or errors, readNewLines returns an empty sequence, but the stored
    resume cursor is not preserved: it is unconditionally set to the
    current time at the start of every call, before any backend query, so
    the cursor advances even without a confirmed successful read. -/
theorem journalctl_error_empty_cursor_set_to_now
    (backend : String → Nat → JOutcome) (now : Nat) (st : JState)
    (herr : hitsError backend (sinceOf st now) ["sshd", "ssh", "openssh"] = true) :
    (read_from_journalctl backend now st).1 = []
    ∧ (read_from_journalctl backend now st).2.last_timestamp = some now := by
  constructor
  · exact tryServices_error_empty backend (sinceOf st now) _ herr
  · rfl

/-- Concrete instance of journalctl_error_empty_cursor_set_to_now: a backend
    that always times out yields an empty read and cursor = call time. -/
theorem journalctl_error_empty_cursor_set_to_now_witness :
    hitsError (fun _ _ => JOutcome.timeout) (sinceOf ⟨some 5, 10⟩ 6)
        ["sshd", "ssh", "openssh"] = true
    ∧ (read_from_journalctl (fun _ _ => JOutcome.timeout) 6 ⟨some 5, 10⟩).1 = []
    ∧ (read_from_journalctl (fun _ _ => JOutcome.timeout) 6 ⟨some 5, 10⟩).2.last_timestamp
        = some 6 :=
  ⟨by decide,
    journalctl_error_empty_cursor_set_to_now (fun _ _ => JOutcome.timeout) 6
      ⟨some 5, 10⟩ (by decide)⟩

/-- Counterexample to claim C4: the flat-file reader has no stored byte
    offset. With the log file holding the single line a, a first call
    returns that line; after one appended line b (same file identity, pure
    append growth) the second call returns the line a again — the same line
    is delivered, and hence counted, twice. -/
theorem read_from_file_redelivers :
    "a" ∈ read_from_file ["a"] ∧ "a" ∈ read_from_file ["a", "b"] := by
  decide

/-- Claim C4 amended: in flat-file mode the reader keeps no byte offset; it
    re-reads and returns the last 200 lines of the file on every call, so
    across two consecutive calls on an append-only file, every line of the
    first call's result is returned again by the second call whenever the
    grown file still has at most 200 lines (double-counting, rather than
    the claimed offset-resume exactly-once delivery). -/
theorem read_from_file_no_offset (l1 ext : List String) (x : String)
    (h : (l1 ++ ext).length ≤ 200) (hx : x ∈ read_from_file l1) :
    x ∈ read_from_file (l1 ++ ext)
    ∧ read_from_file l1 = l1
    ∧ read_from_file (l1 ++ ext) = l1 ++ ext := by
  have h1 : l1.length ≤ 200 := by
    rw [List.length_append] at h
    omega
  have e1 : read_from_file l1 = l1 := by
    unfold read_from_file
    have : l1.length - 200 = 0 := by omega
    rw [this, List.drop_zero]
  have e2 : read_from_file (l1 ++ ext) = l1 ++ ext := by
    unfold read_from_file
    have : (l1 ++ ext).length - 200 = 0 := by omega
    rw [this, List.drop_zero]
  refine ⟨?_, e1, e2⟩
  rw [e2]
  rw [e1] at hx
  exact List.mem_append_left ext hx

/-- Concrete instance of read_from_file_no_offset: the line a of the first
    read is returned again after appending b. -/
theorem read_from_file_no_offset_witness :
    ((["a"] ++ ["b"] : List String).length ≤ 200 ∧ "a" ∈ read_from_file ["a"])
    ∧ ("a" ∈ read_from_file (["a"] ++ ["b"])
        ∧ read_from_file ["a"] = ["a"]
        ∧ read_from_file (["a"] ++ ["b"]) = ["a"] ++ ["b"]) :=
  ⟨⟨by decide, by decide⟩,
    read_from_file_no_offset ["a"] ["b"] "a" (by decide) (by decide)⟩

/-
  HTTPDetector (http_detector.py). The four per-category detectors
  (detect_sql_injection, detect_xss, detect_path_traversal,
  detect_command_injection) each return whether any regex of the category
  matches the request string; the regex engine is abstracted into the four
  boolean-valued functions handed to analyze_request, one per category, in
  the order the source consults them.
-/

/-- An attack_info dict as built by HTTPDetector.analyze_request
    (http_detector.py lines 146-152), without the timestamp field. -/
structure AttackInfo where
  ip : String
  attack_types : List String
  request : String
  threat_level : String
deriving Repr, DecidableEq

/-- The attack_types list built at http_detector.py lines 127-139: one tag
    per matching category, in source order. -/
def attackTypesOf (sqli xss pt ci : Bool) : List String :=
  (if sqli then ["SQL_INJECTION"] else [])
    ++ (if xss then ["XSS"] else [])
    ++ (if pt then ["PATH_TRAVERSAL"] else [])
    ++ (if ci then ["COMMAND_INJECTION"] else [])

/-- HTTPDetector._calculate_threat_level (http_detector.py lines 159-176). -/
def http_calculate_threat_level (attack_types : List String) : String :=
  if attack_types.length ≥ 3 then "CRITICAL"
  else if attack_types.contains "SQL_INJECTION" ∨ attack_types.contains "COMMAND_INJECTION" then "HIGH"
  else if attack_types.length ≥ 2 then "HIGH"
  else "MEDIUM"

/-- HTTPDetector.analyze_request (http_detector.py lines 116-157): run the
    four category detectors in order, and if any category matched, return
    the attack info carrying the first 200 characters of the request and
    the computed threat level; otherwise return none. (The CustomHashTable
    attack counter and the detected_attacks history do not affect the
    returned value and are omitted.) -/
def analyze_request (sqli xss pt ci : String → Bool) (ip request : String) :
    Option AttackInfo :=
  let ats := attackTypesOf (sqli request) (xss request) (pt request) (ci request)
  if ats = [] then none
  else some { ip := ip, attack_types := ats, request := request.take 200,
              threat_level := http_calculate_threat_level ats }

/-- Claim C5: for every request whose matched attack-category set is
    non-empty, the assigned severity is CRITICAL when 3 or more categories
    matched; otherwise HIGH when the set contains SQL injection or command
    injection; otherwise HIGH when exactly 2 categories matched; otherwise
    MEDIUM when exactly 1 category matched. -/
theorem analyze_request_severity (sqli xss pt ci : String → Bool)
    (ip request : String) (info : AttackInfo)
    (h : analyze_request sqli xss pt ci ip request = some info) :
    (3 ≤ info.attack_types.length → info.threat_level = "CRITICAL")
    ∧ (info.attack_types.length < 3
        ∧ ("SQL_INJECTION" ∈ info.attack_types ∨ "COMMAND_INJECTION" ∈ info.attack_types)
        → info.threat_level = "HIGH")
    ∧ (info.attack_types.length = 2
        ∧ "SQL_INJECTION" ∉ info.attack_types ∧ "COMMAND_INJECTION" ∉ info.attack_types
        → info.threat_level = "HIGH")
    ∧ (info.attack_types.length = 1
        ∧ "SQL_INJECTION" ∉ info.attack_types ∧ "COMMAND_INJECTION" ∉ info.attack_types
        → info.threat_level = "MEDIUM") := by
  unfold analyze_request at h
  cases hs : sqli request <;> cases hx : xss request <;>
    cases hp : pt request <;> cases hc : ci request <;>
    rw [hs, hx, hp, hc] at h <;>
    simp [attackTypesOf] at h <;>
    subst h <;> simp [http_calculate_threat_level]

/-- Concrete instance of analyze_request_severity: a request matching only
    the SQL-injection category is assigned HIGH. -/
theorem analyze_request_severity_witness :
    analyze_request (fun r => r == "q") (fun _ => false) (fun _ => false)
        (fun _ => false) "10.0.0.9" "q"
      = some ⟨"10.0.0.9", ["SQL_INJECTION"], "q".take 200,
              http_calculate_threat_level ["SQL_INJECTION"]⟩
    ∧ ((⟨"10.0.0.9", ["SQL_INJECTION"], "q".take 200,
          http_calculate_threat_level ["SQL_INJECTION"]⟩ : AttackInfo).attack_types.length < 3
        ∧ ("SQL_INJECTION" ∈ (⟨"10.0.0.9", ["SQL_INJECTION"], "q".take 200,
              http_calculate_threat_level ["SQL_INJECTION"]⟩ : AttackInfo).attack_types
          ∨ "COMMAND_INJECTION" ∈ (⟨"10.0.0.9", ["SQL_INJECTION"], "q".take 200,
              http_calculate_threat_level ["SQL_INJECTION"]⟩ : AttackInfo).attack_types)
        → (⟨"10.0.0.9", ["SQL_INJECTION"], "q".take 200,
              http_calculate_threat_level ["SQL_INJECTION"]⟩ : AttackInfo).threat_level
            = "HIGH") :=
  ⟨rfl,
    (analyze_request_severity (fun r => r == "q") (fun _ => false) (fun _ => false)
      (fun _ => false) "10.0.0.9" "q"
      ⟨"10.0.0.9", ["SQL_INJECTION"], "q".take 200,
        http_calculate_threat_level ["SQL_INJECTION"]⟩ rfl).2.1⟩

/-
  LogParser.parse_lines (log_parser.py lines 179-208) and the PATTERNS table
  (lines 17-30). The regex engine is abstracted: each of the four PATTERNS
  entries becomes a matcher function returning the capture groups on a
  match. failed_password and invalid_user have two groups (group 1 the user
  name, group 2 the address); auth_failure and connection_closed capture the
  address in group 1. The dict iteration order of PATTERNS is its
  declaration order: failed_password, invalid_user, auth_failure,
  connection_closed.
-/

/-- The four PATTERNS matchers (log_parser.py lines 17-30), one per regex,
    in declaration order. A two-group matcher returns (group 1, group 2). -/
structure Matchers where
  failed_password : String → Option (String × String)
  invalid_user : String → Option (String × String)
  auth_failure : String → Option String
  connection_closed : String → Option String

/-- The inner loop of parse_lines for one line (log_parser.py lines
    192-206): try each pattern in declaration order, and on the first match
    extract group 2 for failed_password and invalid_user, group 1
    otherwise, then stop (break). -/
def extract_ip (m : Matchers) (line : String) : Option String :=
  match m.failed_password line with
  | some g => some g.2
  | none =>
    match m.invalid_user line with
    | some g => some g.2
    | none =>
      match m.auth_failure line with
      | some ip => some ip
      | none => m.connection_closed line

/-- defaultdict(int) increment: new_attempts[ip] += 1, keeping first-insert
    key order as a Python dict does. -/
def bump : List (String × Nat) → String → List (String × Nat)
  | [], ip => [(ip, 1)]
  | (k, v) :: rest, ip =>
    if k = ip then (k, v + 1) :: rest else (k, v) :: bump rest ip

/-- LogParser.parse_lines (log_parser.py lines 179-208): fold extract_ip
    over the lines, incrementing the per-address counter at most once per
    line. (The cumulative self.failed_attempts counter is incremented in
    lockstep and does not affect the returned dict.) -/
def parse_lines (m : Matchers) (lines : List String) : List (String × Nat) :=
  lines.foldl
    (fun acc line =>
      match extract_ip m line with
      | some ip => bump acc ip
      | none => acc)
    []

/-- Total number of recorded attempts in a parse_lines result. -/
def sumCounts (counts : List (String × Nat)) : Nat :=
  (counts.map Prod.snd).sum

theorem sumCounts_bump (acc : List (String × Nat)) (ip : String) :
    sumCounts (bump acc ip) = sumCounts acc + 1 := by
  induction acc with
  | nil => rfl
  | cons hd tl ih =>
    obtain ⟨k, v⟩ := hd
    by_cases hk : k = ip
    · simp [bump, hk, sumCounts]
      omega
    · simp [bump, hk, sumCounts] at ih ⊢
      omega

theorem parse_lines_foldl_sum (m : Matchers) :
    ∀ (lines : List String) (acc : List (String × Nat)),
      sumCounts (lines.foldl
        (fun acc2 line =>
          match extract_ip m line with
          | some ip => bump acc2 ip
          | none => acc2) acc)
      = sumCounts acc + (lines.filter (fun l => (extract_ip m l).isSome)).length := by
  intro lines
  induction lines with
  | nil => intro acc; simp
  | cons hd tl ih =>
    intro acc
    rw [List.foldl_cons, List.filter_cons]
    cases hx : extract_ip m hd with
    | some ip =>
      simp only [hx, Option.isSome_some, if_true]
      rw [ih (bump acc ip), sumCounts_bump]
      simp
      omega
    | none =>
      simp only [hx, Option.isSome_none]
      rw [ih acc]
      simp

/-- Claim C6: address extraction evaluates the fixed rule list in
    declaration order (failed_password, invalid_user, auth_failure,
    connection_closed), returns the address from the first matching rule
    using that rule's capture group (group 2 for the first two rules,
    group 1 for the others), and parse_lines records at most one extracted
    address per line — the total number of recorded attempts equals the
    number of lines with a match, even when several rules match a line. -/
theorem extract_ip_first_rule (m : Matchers) (line : String) (lines : List String) :
    (∀ g, m.failed_password line = some g → extract_ip m line = some g.2)
    ∧ (∀ g, m.failed_password line = none → m.invalid_user line = some g →
        extract_ip m line = some g.2)
    ∧ (∀ ip, m.failed_password line = none → m.invalid_user line = none →
        m.auth_failure line = some ip → extract_ip m line = some ip)
    ∧ (m.failed_password line = none → m.invalid_user line = none →
        m.auth_failure line = none → extract_ip m line = m.connection_closed line)
    ∧ sumCounts (parse_lines m lines)
        = (lines.filter (fun l => (extract_ip m l).isSome)).length := by
  refine ⟨?_, ?_, ?_, ?_, ?_⟩
  · intro g hg; simp [extract_ip, hg]
  · intro g h1 h2; simp [extract_ip, h1, h2]
  · intro ip h1 h2 h3; simp [extract_ip, h1, h2, h3]
  · intro h1 h2 h3; simp [extract_ip, h1, h2, h3]
  · have := parse_lines_foldl_sum m lines []
    simpa [parse_lines, sumCounts] using this

/-- Concrete instance of extract_ip_first_rule: with a line matching both
    the failed_password and the invalid_user rule, the extracted address is
    the failed_password one (the earlier rule of the fixed order), and the
    line records exactly one attempt. -/
theorem extract_ip_first_rule_witness :
    (let m0 : Matchers :=
      ⟨fun l => if l == "both" then some ("root", "1.1.1.1") else none,
       fun l => if l == "both" then some ("root", "2.2.2.2") else none,
       fun _ => none, fun _ => none⟩
     m0.failed_password "both" = some ("root", "1.1.1.1")
     ∧ m0.invalid_user "both" = some ("root", "2.2.2.2")
     ∧ extract_ip m0 "both" = some "1.1.1.1"
     ∧ sumCounts (parse_lines m0 ["both"])
         = (["both"].filter (fun l => (extract_ip m0 l).isSome)).length) := by
  refine ⟨by decide, by decide, ?_, ?_⟩
  · exact (extract_ip_first_rule _ "both" []).1 ("root", "1.1.1.1") (by decide)
  · exact (extract_ip_first_rule _ "both" ["both"]).2.2.2.2

theorem llRemove_nodup_filter (ip : String) :
    ∀ (l : List String), l.Nodup → llRemove ip l = l.filter (fun x => x != ip) := by
  intro l
  induction l with
  | nil => intro _; rfl
  | cons x xs ih =>
    intro hnd
    rw [List.nodup_cons] at hnd
    obtain ⟨hx, hnd2⟩ := hnd
    by_cases he : x = ip
    · subst he
      have hall : xs.filter (fun y => y != x) = xs := by
        rw [List.filter_eq_self]
        intro y hy
        simp only [bne_iff_ne, ne_eq]
        intro hcontra
        exact hx (hcontra ▸ hy)
      simp [llRemove, hall]
    · simp [llRemove, he, List.filter_cons, ih hnd2]

theorem unblockAllGo_spec (fw : Cmd → Bool) :
    ∀ (ips : List String) (st : BlockerState), ips.Nodup → st.blocked.Nodup →
      (∀ ip ∈ ips, ip ∈ st.blocked) →
      (unblockAllGo fw ips st).1 = (ips.filter (fun ip => fw (delCmd ip))).length
      ∧ (unblockAllGo fw ips st).2.1 = ips.map delCmd
      ∧ (unblockAllGo fw ips st).2.2.blocked
          = st.blocked.filter (fun b => !(ips.contains b && fw (delCmd b))) := by
  intro ips
  induction ips with
  | nil =>
    intro st _ _ _
    refine ⟨rfl, rfl, ?_⟩
    have : st.blocked.filter (fun b => !(([] : List String).contains b && fw (delCmd b)))
        = st.blocked := by
      rw [List.filter_eq_self]
      intro b _
      simp
    simp [unblockAllGo, this]
  | cons ip rest ih =>
    intro st hndips hndb hsub
    rw [List.nodup_cons] at hndips
    obtain ⟨hipnotin, hndrest⟩ := hndips
    have hmem : ip ∈ st.blocked := hsub ip (List.mem_cons_self ip rest)
    by_cases hfw : fw (delCmd ip) = true
    · have hr : unblock_ip fw st ip =
          { ret := true, fwCalls := [delCmd ip],
            state := { blocked := llRemove ip st.blocked,
                       fileLines := removeFromFile ip st.fileLines } } := by
        simp [unblock_ip, hmem, hfw]
      have hblocked2 : llRemove ip st.blocked = st.blocked.filter (fun x => x != ip) :=
        llRemove_nodup_filter ip st.blocked hndb
      have hnd3 : (st.blocked.filter (fun x => x != ip)).Nodup := List.Nodup.filter _ hndb
      have hsub2 : ∀ x ∈ rest, x ∈ st.blocked.filter (fun y => y != ip) := by
        intro x hx
        rw [List.mem_filter]
        refine ⟨hsub x (List.mem_cons_of_mem ip hx), ?_⟩
        simp only [bne_iff_ne, ne_eq]
        intro hcontra
        exact hipnotin (hcontra ▸ hx)
      have ihr := ih { blocked := st.blocked.filter (fun x => x != ip),
                       fileLines := removeFromFile ip st.fileLines } hndrest hnd3 hsub2
      have hunf : unblockAllGo fw (ip :: rest) st
          = (1 + (unblockAllGo fw rest
                { blocked := st.blocked.filter (fun x => x != ip),
                  fileLines := removeFromFile ip st.fileLines }).1,
             [delCmd ip] ++ (unblockAllGo fw rest
                { blocked := st.blocked.filter (fun x => x != ip),
                  fileLines := removeFromFile ip st.fileLines }).2.1,
             (unblockAllGo fw rest
                { blocked := st.blocked.filter (fun x => x != ip),
                  fileLines := removeFromFile ip st.fileLines }).2.2) := by
        rw [unblockAllGo]
        rw [hr]
        simp [hblocked2]
      refine ⟨?_, ?_, ?_⟩
      · rw [hunf]
        dsimp only
        rw [ihr.1, List.filter_cons]
        simp [hfw]
        omega
      · rw [hunf]
        dsimp only
        rw [ihr.2.1, List.map_cons]
        simp
      · rw [hunf]
        dsimp only
        rw [ihr.2.2]
        dsimp only
        rw [List.filter_filter]
        refine List.filter_congr ?_
        intro b hb
        by_cases hbip : b = ip
        · subst hbip
          simp [hfw]
        · simp [hbip]
    · have hfw2 : fw (delCmd ip) = false := by
        cases hx : fw (delCmd ip)
        · rfl
        · exact absurd hx hfw
      have hr : unblock_ip fw st ip =
          { ret := false, fwCalls := [delCmd ip], state := st } := by
        simp [unblock_ip, hmem, hfw2]
      have ihr := ih st hndrest hndb
        (fun x hx => hsub x (List.mem_cons_of_mem ip hx))
      have hunf : unblockAllGo fw (ip :: rest) st
          = (0 + (unblockAllGo fw rest st).1,
             [delCmd ip] ++ (unblockAllGo fw rest st).2.1,
             (unblockAllGo fw rest st).2.2) := by
        rw [unblockAllGo]
        rw [hr]
        simp
      refine ⟨?_, ?_, ?_⟩
      · rw [hunf]
        dsimp only
        rw [ihr.1, List.filter_cons]
        simp [hfw2]
      · rw [hunf]
        dsimp only
        rw [ihr.2.1, List.map_cons]
        simp
      · rw [hunf]
        dsimp only
        rw [ihr.2.2]
        refine List.filter_congr ?_
        intro b hb
        by_cases hbip : b = ip
        · subst hbip
          simp [hfw2]
        · simp [hbip]

/-- Claim C7: unblock_all sweeps every currently blocked address: the
    firewall remove action is attempted for each one (a failure on one
    address does not prevent the remaining attempts), the returned count
    equals the number of addresses whose remove action succeeded, and the
    blocked set afterwards consists exactly of the addresses whose remove
    action failed (which therefore remain in the Blocked state). -/
theorem unblock_all_partial (fw : Cmd → Bool) (st : BlockerState)
    (hnd : st.blocked.Nodup) :
    (unblock_all fw st).1 = (st.blocked.filter (fun ip => fw (delCmd ip))).length
    ∧ (unblock_all fw st).2.1 = st.blocked.map delCmd
    ∧ (unblock_all fw st).2.2.blocked
        = st.blocked.filter (fun ip => !(fw (delCmd ip))) := by
  have h := unblockAllGo_spec fw st.blocked st hnd hnd (fun _ hx => hx)
  refine ⟨h.1, h.2.1, ?_⟩
  refine (h.2.2).trans (List.filter_congr ?_)
  intro b hb
  simp [hb]

/-- Concrete instance of unblock_all_partial (the spec's bulk-unblock
    scenario): three blocked addresses, the firewall failing exactly on the
    second; the call returns 2 and the second address stays blocked. -/
theorem unblock_all_partial_witness :
    (⟨["1.1.1.1", "2.2.2.2", "3.3.3.3"], []⟩ : BlockerState).blocked.Nodup
    ∧ (unblock_all (fun c => if c = delCmd "2.2.2.2" then false else true)
        ⟨["1.1.1.1", "2.2.2.2", "3.3.3.3"], []⟩).1 = 2
    ∧ (unblock_all (fun c => if c = delCmd "2.2.2.2" then false else true)
        ⟨["1.1.1.1", "2.2.2.2", "3.3.3.3"], []⟩).2.2.blocked = ["2.2.2.2"] := by
  have h := unblock_all_partial (fun c => if c = delCmd "2.2.2.2" then false else true)
    ⟨["1.1.1.1", "2.2.2.2", "3.3.3.3"], []⟩ (by decide)
  exact ⟨by decide, h.1.trans (by decide), h.2.2.trans (by decide)⟩

/-- Counterexample to claim C8: when the firewall flush invocation fails,
    flush_iptables leaves the tracked block state untouched — with one
    blocked address and a failing firewall, the blocked set afterwards is
    not empty and the persisted records are not cleared, contrary to the
    claimed reset regardless of outcome. -/
theorem flush_failure_keeps_state :
    (flush_iptables (fun _ => false) "ts" ⟨["1.2.3.4"], ["1.2.3.4 | t"]⟩).state.blocked ≠ []
    ∧ (flush_iptables (fun _ => false) "ts"
        ⟨["1.2.3.4"], ["1.2.3.4 | t"]⟩).state.fileLines = ["1.2.3.4 | t"]
    ∧ (flush_iptables (fun _ => false) "ts" ⟨["1.2.3.4"], ["1.2.3.4 | t"]⟩).ret = false := by
  refine ⟨?_, rfl, rfl⟩
  intro h
  simp [flush_iptables] at h

/-- Claim C8 amended: flushAll resets the tracked block state to empty
    (every address NotBlocked, persisted records replaced by a single
    header line) exactly when the underlying firewall flush invocation
    succeeds; when it fails, the tracked state and the persisted records
    are left unchanged and False is returned. -/
theorem flush_resets_only_on_success (fw : Cmd → Bool) (ts : String) (st : BlockerState) :
    (fw flushCmd = true →
      (flush_iptables fw ts st).state.blocked = []
      ∧ (flush_iptables fw ts st).state.fileLines = ["# Blocked IPs - Flushed " ++ ts]
      ∧ (flush_iptables fw ts st).ret = true)
    ∧ (fw flushCmd = false →
      (flush_iptables fw ts st).state = st
      ∧ (flush_iptables fw ts st).ret = false) := by
  constructor
  · intro h
    simp [flush_iptables, h]
  · intro h
    simp [flush_iptables, h]

/-- Concrete instance of flush_resets_only_on_success: with a succeeding
    firewall the tracked blocked set is cleared. -/
theorem flush_resets_only_on_success_witness :
    (fun _ => true : Cmd → Bool) flushCmd = true
    ∧ ((flush_iptables (fun _ => true) "ts" ⟨["1.2.3.4"], ["1.2.3.4 | t"]⟩).state.blocked = []
      ∧ (flush_iptables (fun _ => true) "ts" ⟨["1.2.3.4"], ["1.2.3.4 | t"]⟩).state.fileLines
          = ["# Blocked IPs - Flushed " ++ "ts"]
      ∧ (flush_iptables (fun _ => true) "ts" ⟨["1.2.3.4"], ["1.2.3.4 | t"]⟩).ret = true) :=
  ⟨rfl,
    (flush_resets_only_on_success (fun _ => true) "ts" ⟨["1.2.3.4"], ["1.2.3.4 | t"]⟩).1 rfl⟩

/-
  main.py / IDS.__init__ (main.py lines 28-74) and LogParser.__init__
  (log_parser.py lines 32-47). Python binds keyword arguments by name: a
  call supplying a keyword that is not among the callee's parameter names
  raises TypeError before the body runs. IDS.__init__ constructs its
  components in order, starting with LogParser(interval=interval) at
  main.py line 45; a TypeError there propagates out of IDS.__init__, so
  the component construction and everything after it never runs.
-/

/-- The parameter names of LogParser.__init__ (log_parser.py line 32),
    excluding self. -/
def logParserParamNames : List String := ["log_file", "lookback_minutes"]

/-- Result of constructing a component: either constructed, or a Python
    TypeError naming the unexpected keyword argument. -/
inductive InitResult where
  | ok
  | typeError (kw : String)
deriving Repr, DecidableEq

/-- Python keyword binding for LogParser.__init__: the call raises
    TypeError on the first keyword argument that is not a parameter name. -/
def logParserInit (kwargs : List String) : InitResult :=
  match kwargs.find? (fun k => !(logParserParamNames.contains k)) with
  | some k => .typeError k
  | none => .ok

/-- IDS.__init__ (main.py lines 28-74): the first component constructed is
    LogParser(interval=interval) (line 45); on TypeError the constructor
    aborts there, before the detector, database, logger and blocker are
    built and before any scan state is set up. The threshold, interval and
    flag arguments do not influence which keywords are passed. -/
def IDS_init (_threshold _interval : Nat) (_enable_http _demo_mode : Bool) : InitResult :=
  match logParserInit ["interval"] with
  | .typeError k => .typeError k
  | .ok => .ok

/-- The three main() paths that construct the orchestrator (main.py lines
    258-296): default demo mode, --real, and --ssh-only. -/
inductive Mode where
  | demo
  | real
  | sshOnly
deriving Repr, DecidableEq

/-- Outcome of running main() in a constructing mode: either IDS.__init__
    completes and ids.start() enters the monitoring loop, or the
    constructor raises and the loop is never reached. -/
inductive MainOutcome where
  | loopStarted
  | initTypeError (kw : String)
deriving Repr, DecidableEq

/-- main() (main.py lines 226-296): each constructing path calls
    IDS(threshold=5, interval=10, ...) with enable_http and demo_mode as in
    the source, then ids.start(); the loop starts only if the constructor
    returned normally. -/
def runMain (m : Mode) : MainOutcome :=
  match m with
  | .demo =>
    match IDS_init 5 10 true true with
    | .typeError k => .initTypeError k
    | .ok => .loopStarted
  | .real =>
    match IDS_init 5 10 true false with
    | .typeError k => .initTypeError k
    | .ok => .loopStarted
  | .sshOnly =>
    match IDS_init 5 10 false true with
    | .typeError k => .initTypeError k
    | .ok => .loopStarted

/-- Claim C9: for every main() invocation that constructs the orchestrator
    (default demo mode, --real, --ssh-only), IDS.__init__ raises TypeError
    on the keyword interval — which LogParser.__init__ does not accept, its
    parameters being only log_file and lookback_minutes — so the monitoring
    loop is unreachable through main(). -/
theorem main_init_type_error :
    runMain .demo = .initTypeError "interval"
    ∧ runMain .real = .initTypeError "interval"
    ∧ runMain .sshOnly = .initTypeError "interval"
    ∧ logParserParamNames.contains "interval" = false
    ∧ logParserParamNames = ["log_file", "lookback_minutes"] := by
  decide

/-- Claim C10: when unblock_ip(a) succeeds, the persisted block-list lines
    afterwards are exactly the old lines whose stripped content does not
    start with the string a; hence a retained line is one not
    prefix-matching a, and every line whose stripped content starts with a
    — including records of distinct addresses of which a is a textual
    prefix — is deleted, while all other lines are preserved. -/
theorem unblock_removes_prefix_lines (fw : Cmd → Bool) (st : BlockerState)
    (a l : String) (hblocked : st.blocked.contains a = true)
    (hfw : fw (delCmd a) = true) :
    (unblock_ip fw st a).ret = true
    ∧ (unblock_ip fw st a).state.fileLines
        = st.fileLines.filter (fun l2 => !(pyStartsWith (pyStrip l2) a))
    ∧ (l ∈ st.fileLines →
        (l ∈ (unblock_ip fw st a).state.fileLines
          ↔ pyStartsWith (pyStrip l) a = false)) := by
  have hmem : a ∈ st.blocked := by simpa using hblocked
  have hr : unblock_ip fw st a =
      { ret := true, fwCalls := [delCmd a],
        state := { blocked := llRemove a st.blocked,
                   fileLines := removeFromFile a st.fileLines } } := by
    simp [unblock_ip, hmem, hfw]
  refine ⟨by rw [hr], by rw [hr]; rfl, ?_⟩
  intro hl
  rw [hr]
  show l ∈ removeFromFile a st.fileLines ↔ _
  rw [removeFromFile, List.mem_filter]
  constructor
  · intro hx
    have := hx.2
    simpa using this
  · intro hx
    exact ⟨hl, by simp [hx]⟩

/-- Concrete instance of unblock_removes_prefix_lines: unblocking 10.0.0.1
    also deletes the persisted line of the distinct address 10.0.0.10, of
    which 10.0.0.1 is a textual prefix. -/
theorem unblock_removes_prefix_lines_witness :
    ((⟨["10.0.0.1", "10.0.0.10"], ["# header", "10.0.0.1 | t1", "10.0.0.10 | t2"]⟩ :
        BlockerState).blocked.contains "10.0.0.1" = true
      ∧ pyStartsWith (pyStrip "10.0.0.10 | t2") "10.0.0.1" = true)
    ∧ ¬("10.0.0.10 | t2" ∈ (unblock_ip (fun _ => true)
          ⟨["10.0.0.1", "10.0.0.10"], ["# header", "10.0.0.1 | t1", "10.0.0.10 | t2"]⟩
          "10.0.0.1").state.fileLines)
    ∧ "# header" ∈ (unblock_ip (fun _ => true)
          ⟨["10.0.0.1", "10.0.0.10"], ["# header", "10.0.0.1 | t1", "10.0.0.10 | t2"]⟩
          "10.0.0.1").state.fileLines := by
  have h := unblock_removes_prefix_lines (fun _ => true)
    ⟨["10.0.0.1", "10.0.0.10"], ["# header", "10.0.0.1 | t1", "10.0.0.10 | t2"]⟩
    "10.0.0.1" "10.0.0.10 | t2" (by decide) rfl
  have h2 := unblock_removes_prefix_lines (fun _ => true)
    ⟨["10.0.0.1", "10.0.0.10"], ["# header", "10.0.0.1 | t1", "10.0.0.10 | t2"]⟩
    "10.0.0.1" "# header" (by decide) rfl
  refine ⟨⟨by decide, by decide⟩, ?_, ?_⟩
  · intro hmem2
    have := (h.2.2 (by decide)).mp hmem2
    exact absurd this (by decide)
  · exact (h2.2.2 (by decide)).mpr (by decide)
